import Mathlib

/-!
# Verification of the xerxes-protocol wire codec, node model and memory map

Shallow embedding of the `xerxes_protocol` Python package:

* `src/xerxes_protocol/network.py` — `checksum`, `Addr`, `XerxesMessage`,
  `XerxesNetwork.read_msg`, `XerxesNetwork.send_msg`,
  `XerxesNetwork.wait_for_reply`;
* `src/xerxes_protocol/memory.py` — `ElementType`, `MemoryElement`,
  `XerxesMemoryType` dynamic getters/setters, the read-only region;
* `src/xerxes_protocol/hierarchy/root.py` — `XerxesRoot.ping` reply handling.

Bytes are modelled as `Nat` (values below 256 where the Python `bytes`
type guarantees it); byte strings as `List Nat`; the serial stream as a
`List Nat` whose exhaustion models a read timeout returning zero bytes.
Python exceptions are modelled with `Except`.
-/

namespace Xerxes

/-- Error conditions raised by `XerxesNetwork.read_msg`
(`network.py`): `TimeoutError` (no SOH before the stream yields zero
bytes), `MessageIncomplete`, `ChecksumError`, and the undocumented
`ValueError` that `int(b"".hex(), 16)` raises when a zero-length read
is converted to an integer (length, source and destination bytes). -/
inductive DecodeErr where
  | timeoutError
  | messageIncomplete
  | checksumError
  | valueError
deriving DecidableEq, Repr

/-- `network.py` `XerxesMessage` (latency, a wall-clock float, is not
modelled). `source`/`destination` are the `Addr` byte values, `length`
the declared length byte, `message_id` the 16-bit little-endian kind
code, `payload` the data after the kind, `crc` the final residue. -/
structure XerxesMessage where
  source : Nat
  destination : Nat
  length : Nat
  message_id : Nat
  payload : List Nat
  crc : Nat
deriving DecidableEq, Repr

/-- `network.py` lines 58–71, `checksum(message)`:
`summary = sum(message); summary ^= 0xFF; summary += 1; summary %= 0x100`,
returned as one byte. -/
def checksum (message : List Nat) : Nat :=
  ((message.sum ^^^ 0xFF) + 1) % 0x100

/-- XOR with `0xFF` commutes with reduction mod 256: only the low 8 bits
are affected. -/
theorem xor255_mod256 (s : Nat) : (s ^^^ 255) % 256 = (s % 256) ^^^ 255 := by
  apply Nat.eq_of_testBit_eq
  intro i
  have h255 : (255 : Nat) = 2 ^ 8 - 1 := by norm_num
  have h256 : (256 : Nat) = 2 ^ 8 := by norm_num
  rw [h255, h256, Nat.testBit_mod_two_pow, Nat.testBit_xor, Nat.testBit_xor,
    Nat.testBit_mod_two_pow, Nat.testBit_two_pow_sub_one]
  by_cases hi : i < 8 <;> simp [hi]

set_option maxRecDepth 2000 in
/-- XOR with `255` on a byte value is complement. -/
theorem byte_xor255 : ∀ r : Nat, r < 256 → r ^^^ 255 = 255 - r := by decide

/-- The two's-complement form of the checksum. -/
theorem checksum_eq_twos_complement (message : List Nat) :
    checksum message = (256 - message.sum % 256) % 256 := by
  unfold checksum
  have hlt : message.sum % 256 < 256 := Nat.mod_lt _ (by norm_num)
  have hx : (message.sum ^^^ 255) % 256 = 255 - message.sum % 256 := by
    rw [xor255_mod256]
    exact byte_xor255 _ hlt
  omega

/-- Appending the checksum makes the byte sum vanish mod 256. -/
theorem sum_with_checksum (message : List Nat) :
    (message.sum + checksum message) % 256 = 0 := by
  rw [checksum_eq_twos_complement]
  omega

/-- `network.py` lines 298–302: scan the stream for the SOH byte `0x01`,
discarding preceding bytes; a zero-length read (exhausted stream) before
SOH is found raises `TimeoutError` (modelled as `none`). -/
def scanSOH : List Nat → Option (List Nat)
  | [] => none
  | b :: rest => if b = 1 then some rest else scanSOH rest

/-- `network.py` lines 326–332: read `n` payload bytes one at a time;
a zero-length read raises `MessageIncomplete` (modelled as `none`). -/
def readPayload : Nat → List Nat → Option (List Nat × List Nat)
  | 0, s => some ([], s)
  | _ + 1, [] => none
  | n + 1, b :: s =>
    match readPayload n s with
    | some (pl, rest) => some (b :: pl, rest)
    | none => none

/-- `network.py` lines 334–353: read the checksum byte (short read raises
`MessageIncomplete`), fold it into the running sum, reduce mod `0x100`,
raise `ChecksumError` on a nonzero residue, otherwise build the
`XerxesMessage`. -/
def readChk (msg_len src dst k0 k1 : Nat) (pl : List Nat) :
    List Nat → Except DecodeErr (XerxesMessage × List Nat)
  | [] => .error .messageIncomplete
  | chk :: s7 =>
    let chs := (1 + msg_len + src + dst + (k0 + k1) + pl.sum + chk) % 0x100
    if chs = 0 then
      .ok ({ source := src, destination := dst, length := msg_len,
             message_id := k0 + 256 * k1, payload := pl, crc := chs }, s7)
    else
      .error .checksumError

/-- `network.py` lines 317–332: read the two message-kind bytes
(`MessageIncomplete` if fewer than 2 arrive), decode them little-endian
(`struct.unpack("H", ...)`), then read the `msg_len - 7` payload bytes
(Python's `range` of a negative count is empty, matching `Nat`
truncated subtraction). -/
def readKind (msg_len src dst : Nat) :
    List Nat → Except DecodeErr (XerxesMessage × List Nat)
  | k0 :: k1 :: s5 =>
    match readPayload (msg_len - 7) s5 with
    | some (pl, s6) => readChk msg_len src dst k0 k1 pl s6
    | none => .error .messageIncomplete
  | _ => .error .messageIncomplete

/-- `network.py` lines 310–314: read one source byte and one destination
byte with no length check, then convert each with `int(b.hex(), 16)` —
a zero-length read makes that conversion raise `ValueError`. -/
def readAddrs (msg_len : Nat) :
    List Nat → Except DecodeErr (XerxesMessage × List Nat)
  | src :: dst :: s4 => readKind msg_len src dst s4
  | _ => .error .valueError

/-- `network.py` lines 305–307: read the length byte via
`int(self._s.read(1).hex(), 16)` — a zero-length read raises
`ValueError`, not `MessageIncomplete`. -/
def readAfterSOH : List Nat → Except DecodeErr (XerxesMessage × List Nat)
  | [] => .error .valueError
  | msg_len :: s2 => readAddrs msg_len s2

/-- `network.py` lines 282–353, `XerxesNetwork.read_msg`: the full
decoder over a byte stream; returns the decoded message and the
unconsumed remainder of the stream. -/
def readMsg (stream : List Nat) : Except DecodeErr (XerxesMessage × List Nat) :=
  match scanSOH stream with
  | none => .error .timeoutError
  | some s1 => readAfterSOH s1

/-- `network.py` lines 88–96, `Addr.__new__` from an `int`: asserts
`addr >= 0` and `addr < 256` (assertion failure modelled as `none`). -/
def mkAddr (addr : Int) : Option Nat :=
  if 0 ≤ addr ∧ addr < 256 then some addr.toNat else none

/-- `network.py` lines 99–101, `Addr.to_bytes`: one little-endian byte. -/
def addrToBytes (addr : Nat) : List Nat := [addr]

/-- Errors raised by `XerxesNetwork.send_msg`: `AssertionError` from the
`Addr` conversions, `OverflowError` from
`(len(payload) + 5).to_bytes(1, "little")` when the value exceeds 255. -/
inductive SendErr where
  | assertionError
  | overflowError
deriving DecidableEq, Repr

/-- `network.py` lines 396–403: the frame
`SOH | LEN | SRC | DST | PAYLOAD | CHK` with `LEN = len(payload) + 5`
and `CHK = checksum(SOH..PAYLOAD)`. -/
def encodeFrame (source destination : Nat) (payload : List Nat) : List Nat :=
  let msg := 1 :: (payload.length + 5) :: source :: destination :: payload
  msg ++ [checksum msg]

/-- `network.py` lines 374–404, `XerxesNetwork.send_msg` (with the
`_opened` assertion satisfied): converts the addresses through `Addr`
(asserting they are in `[0, 256)`), fails with `OverflowError` when
`len(payload) + 5` does not fit one byte, otherwise builds and writes
the frame. -/
def sendMsg (source destination : Nat) (payload : List Nat) :
    Except SendErr (List Nat) :=
  if source < 256 ∧ destination < 256 then
    if payload.length + 5 ≤ 255 then
      .ok (encodeFrame source destination payload)
    else
      .error .overflowError
  else
    .error .assertionError

/-- Reading exactly `data.length` bytes from `data ++ rest` consumes
`data` and leaves `rest`. -/
theorem readPayload_append (data rest : List Nat) :
    readPayload data.length (data ++ rest) = some (data, rest) := by
  induction data with
  | nil => rfl
  | cons b bs ih => simp [readPayload, ih]

/-- A successful `readPayload n` returns exactly `n` bytes. -/
theorem readPayload_length :
    ∀ (n : Nat) (s pl rest : List Nat),
      readPayload n s = some (pl, rest) → pl.length = n := by
  intro n
  induction n with
  | zero =>
    intro s pl rest h
    simp [readPayload] at h
    simp [h.1]
  | succ k ih =>
    intro s pl rest h
    cases s with
    | nil => simp [readPayload] at h
    | cons b bs =>
      rw [readPayload] at h
      cases hrp : readPayload k bs with
      | none => rw [hrp] at h; simp at h
      | some pr =>
        rw [hrp] at h
        simp at h
        rcases h with ⟨h1, _⟩
        rw [← h1]
        simp [ih bs pr.1 pr.2 (by rw [hrp])]

/-- C2: `checksum(b)` is the byte `(256 − (sum(b) mod 256)) mod 256`, and
appending it makes the total byte sum vanish mod 256. -/
theorem checksum_is_twos_complement_residue (b : List Nat) :
    checksum b = (256 - b.sum % 256) % 256 ∧
    (b ++ [checksum b]).sum % 256 = 0 := by
  refine ⟨checksum_eq_twos_complement b, ?_⟩
  rw [List.sum_append, List.sum_cons, List.sum_nil, Nat.add_zero]
  exact sum_with_checksum b

/-- C9: `Addr` construction fails exactly on the integers outside
`[0, 255]` — in particular it rejects −1 and 256, accepts 0 and 255 —
and `Addr(255).to_bytes()` is the single byte `0xFF`. -/
theorem addr_validation_boundaries :
    (∀ a : Int, mkAddr a = none ↔ (a < 0 ∨ 255 < a)) ∧
    mkAddr (-1) = none ∧ mkAddr 256 = none ∧
    mkAddr 0 = some 0 ∧ mkAddr 255 = some 255 ∧
    addrToBytes 255 = [0xFF] := by
  refine ⟨?_, ?_, ?_, ?_, ?_, rfl⟩
  · intro a
    by_cases h : 0 ≤ a ∧ a < 256 <;> simp [mkAddr, h] <;> omega
  all_goals simp [mkAddr]

/-- C3: a zero-length read while scanning for SOH raises `TimeoutError`;
afterwards, a zero-length read raises `ValueError` at the length byte
(`int("", 16)`) and at the source/destination bytes, and
`MessageIncomplete` only at the kind bytes, each payload byte, and the
checksum byte. -/
theorem readMsg_short_read_errors :
    readMsg [] = .error .timeoutError ∧
    readMsg [1] = .error .valueError ∧
    readMsg [1, 9] = .error .valueError ∧
    readMsg [1, 9, 5] = .error .valueError ∧
    readMsg [1, 9, 5, 6] = .error .messageIncomplete ∧
    readMsg [1, 9, 5, 6, 0, 0] = .error .messageIncomplete ∧
    readMsg [1, 7, 5, 6, 0, 0] = .error .messageIncomplete := by
  refine ⟨rfl, rfl, rfl, rfl, rfl, rfl, rfl⟩

/-- C7: with an open channel and valid addresses, `send_msg` fails (with
`OverflowError` from the length byte) iff the payload exceeds 250 bytes;
otherwise the frame `SOH | LEN | SRC | DST | PAYLOAD | CHK` with
`LEN = len(payload) + 5` is built. -/
theorem sendMsg_fails_iff_overlong (src dst : Nat) (payload : List Nat)
    (hs : src < 256) (hd : dst < 256) :
    (sendMsg src dst payload = .error .overflowError ↔ 250 < payload.length) ∧
    (payload.length ≤ 250 →
      sendMsg src dst payload =
        .ok (1 :: (payload.length + 5) :: src :: dst :: payload ++
             [checksum (1 :: (payload.length + 5) :: src :: dst :: payload)])) := by
  unfold sendMsg encodeFrame
  rw [if_pos ⟨hs, hd⟩]
  by_cases hl : payload.length + 5 ≤ 255
  · rw [if_pos hl]
    constructor
    · constructor
      · intro h
        simp at h
      · intro h
        omega
    · intro _
      simp
  · rw [if_neg hl]
    constructor
    · constructor
      · intro _
        omega
      · intro _
        rfl
    · intro h
      omega

/-- Witness for C7 at source 0, destination 1, payload `[2, 3]`. -/
theorem sendMsg_fails_iff_overlong_witness :
    sendMsg 0 1 [2, 3] = .ok [1, 7, 0, 1, 2, 3, 242] :=
  (sendMsg_fails_iff_overlong 0 1 [2, 3] (by norm_num) (by norm_num)).2
    (by norm_num)

/-- The frame built by `encodeFrame` for a payload `k0 :: k1 :: data`,
with the cons/append structure exposed for the decoder. -/
theorem encodeFrame_cons (src dst k0 k1 : Nat) (data : List Nat) :
    encodeFrame src dst (k0 :: k1 :: data) =
      1 :: (data.length + 7) :: src :: dst :: k0 :: k1 ::
        (data ++ [checksum (1 :: (data.length + 7) :: src :: dst :: k0 :: k1 :: data)]) := by
  have hlen2 : (k0 :: k1 :: data).length + 5 = data.length + 7 := by
    simp [List.length_cons]
  unfold encodeFrame
  rw [hlen2]
  simp

/-- C1: for every valid source, destination and payload of at most 250
bytes beginning with the 2-byte little-endian kind code, `send_msg`
builds a frame that `read_msg` decodes back to the same source,
destination, kind and data, with checksum residue zero. -/
theorem encode_decode_roundtrip (src dst k0 k1 : Nat) (data : List Nat)
    (hs : src < 256) (hd : dst < 256) (hk0 : k0 < 256) (hk1 : k1 < 256)
    (hdata : ∀ b ∈ data, b < 256) (hlen : data.length + 2 ≤ 250) :
    sendMsg src dst (k0 :: k1 :: data) = .ok (encodeFrame src dst (k0 :: k1 :: data)) ∧
    readMsg (encodeFrame src dst (k0 :: k1 :: data)) =
      .ok ({ source := src, destination := dst, length := data.length + 7,
             message_id := k0 + 256 * k1, payload := data, crc := 0 }, []) := by
  constructor
  · unfold sendMsg
    rw [if_pos ⟨hs, hd⟩, if_pos (by simp [List.length_cons]; omega)]
  · rw [encodeFrame_cons]
    generalize hc : checksum (1 :: (data.length + 7) :: src :: dst :: k0 :: k1 :: data) = c
    have hsum : (1 + (data.length + 7) + src + dst + (k0 + k1) + data.sum
        + c) % 256 = 0 := by
      rw [← hc]
      have h0 := sum_with_checksum (1 :: (data.length + 7) :: src :: dst :: k0 :: k1 :: data)
      simp only [List.sum_cons] at h0
      omega
    rw [readMsg]
    have hscan : scanSOH (1 :: (data.length + 7) :: src :: dst :: k0 :: k1 ::
        (data ++ [c])) = some ((data.length + 7) :: src :: dst :: k0 :: k1 ::
        (data ++ [c])) := by
      simp [scanSOH]
    rw [hscan]
    simp only [readAfterSOH, readAddrs, readKind]
    have hpl : readPayload (data.length + 7 - 7) (data ++ [c]) = some (data, [c]) := by
      rw [Nat.add_sub_cancel]
      exact readPayload_append data [c]
    rw [hpl]
    simp only [readChk, hsum]
    rfl

/-- Witness for C1 at source 1, destination 2, payload `[3, 0, 4]`. -/
theorem encode_decode_roundtrip_witness :
    readMsg (encodeFrame 1 2 [3, 0, 4]) =
      .ok ({ source := 1, destination := 2, length := 8,
             message_id := 3, payload := [4], crc := 0 }, []) :=
  (encode_decode_roundtrip 1 2 3 0 [4] (by norm_num) (by norm_num)
    (by norm_num) (by norm_num) (by simp) (by norm_num)).2

/-- C8 counterexample: `read_msg` accepts the frame
`01 00 00 00 00 00 FF` (declared length 0, checksum residue 0) with an
empty payload, so `payload.length = 0` differs from
`declared_length − 7 = −7` as integers. -/
theorem readMsg_accepts_short_declared_length :
    readMsg [1, 0, 0, 0, 0, 0, 255] =
      .ok ({ source := 0, destination := 0, length := 0,
             message_id := 0, payload := [], crc := 0 }, []) ∧
    ¬ ((0 : Int) = (0 : Int) - 7) := by
  refine ⟨rfl, by norm_num⟩

/-- C8 (amended): every message accepted by `read_msg` satisfies
`payload.length = declared_length − 7` in truncated (ℕ) subtraction —
i.e. the equation holds exactly when `declared_length ≥ 7`, and the
payload is empty when `declared_length < 7` — and its `crc` field is 0. -/
theorem readMsg_accepted_invariant (stream : List Nat) (m : XerxesMessage)
    (rest : List Nat) (h : readMsg stream = .ok (m, rest)) :
    m.payload.length = m.length - 7 ∧ m.crc = 0 := by
  unfold readMsg at h
  cases hscan : scanSOH stream with
  | none => rw [hscan] at h; exact absurd h (by simp)
  | some s1 =>
    rw [hscan] at h
    cases s1 with
    | nil => exact absurd h (by simp [readAfterSOH])
    | cons msg_len s2 =>
      simp only [readAfterSOH] at h
      match s2 with
      | [] => exact absurd h (by simp [readAddrs])
      | [src] => exact absurd h (by simp [readAddrs])
      | src :: dst :: s4 =>
        simp only [readAddrs] at h
        match s4 with
        | [] => exact absurd h (by simp [readKind])
        | [k0] => exact absurd h (by simp [readKind])
        | k0 :: k1 :: s5 =>
          simp only [readKind] at h
          cases hpl : readPayload (msg_len - 7) s5 with
          | none => rw [hpl] at h; exact absurd h (by simp)
          | some plr =>
            rw [hpl] at h
            match plr with
            | (pl, s6) =>
              match s6 with
              | [] => exact absurd h (by simp [readChk])
              | chk :: s7 =>
                simp only [readChk] at h
                by_cases hchs :
                    (1 + msg_len + src + dst + (k0 + k1) + pl.sum + chk) % 256 = 0
                · rw [if_pos hchs] at h
                  have hm : m =
                      { source := src, destination := dst, length := msg_len,
                        message_id := k0 + 256 * k1, payload := pl,
                        crc := (1 + msg_len + src + dst + (k0 + k1) + pl.sum + chk) % 256 } := by
                    cases h
                    rfl
                  rw [hm]
                  refine ⟨readPayload_length _ _ _ _ hpl, hchs⟩
                · rw [if_neg hchs] at h
                  exact absurd h (by simp)

/-- Witness for the amended C8 on the accepted frame
`01 07 00 00 00 00 F8`. -/
theorem readMsg_accepted_invariant_witness :
    ({ source := 0, destination := 0, length := 7, message_id := 0,
       payload := [], crc := 0 } : XerxesMessage).payload.length =
      ({ source := 0, destination := 0, length := 7, message_id := 0,
         payload := [], crc := 0 } : XerxesMessage).length - 7 ∧
    ({ source := 0, destination := 0, length := 7, message_id := 0,
       payload := [], crc := 0 } : XerxesMessage).crc = 0 :=
  readMsg_accepted_invariant [1, 7, 0, 0, 0, 0, 248] _ [] rfl

/-! ## Typed memory map (`memory.py`) -/

/-- The `struct` format characters used by the element-type catalog in
`memory.py` (`"B" | "H" | "I" | "i" | "Q" | "f" | "d"`). -/
inductive ElemFmt where
  | u8
  | u16
  | u32
  | i32
  | u64
  | f32
  | f64
deriving DecidableEq, Repr

/-- `memory.py` lines 66–78, `ElementType`: `_container` is modelled by
`containerIsInt` (`int` vs `float`), `_format` by `format`, `_length` by
`length`. -/
structure ElementType where
  containerIsInt : Bool
  format : ElemFmt
  length : Nat
deriving DecidableEq, Repr

/-- `memory.py` `uint64_t`. -/
def uint64_t : ElementType := ⟨true, .u64, 8⟩

/-- `memory.py` `uint32_t`. -/
def uint32_t : ElementType := ⟨true, .u32, 4⟩

/-- `memory.py` `uint16_t`. -/
def uint16_t : ElementType := ⟨true, .u16, 2⟩

/-- `memory.py` `uint8_t`. -/
def uint8_t : ElementType := ⟨true, .u8, 1⟩

/-- `memory.py` `int32_t`. -/
def int32_t : ElementType := ⟨true, .i32, 4⟩

/-- `memory.py` `float_t`. -/
def float_t : ElementType := ⟨false, .f32, 4⟩

/-- `memory.py` `double_t`. -/
def double_t : ElementType := ⟨false, .f64, 8⟩

/-- `memory.py` lines 157–166, `MemoryElement`. -/
structure MemoryElement where
  mem_addr : Nat
  mem_type : ElementType
  write_access : Bool := true
deriving DecidableEq, Repr

/-- `memory.py` lines 164–166, `MemoryElement.can_write`. -/
def MemoryElement.can_write (e : MemoryElement) : Bool := e.write_access

/-- Little-endian byte encoding of an unsigned integer into `w` bytes. -/
def toLEBytes : Nat → Nat → List Nat
  | 0, _ => []
  | w + 1, v => v % 256 :: toLEBytes w (v / 256)

/-- `struct.pack(fmt, value)` for a host `int` value: the unsigned
little-endian formats `B`/`H`/`I`/`Q` yield `length` bytes and raise
`struct.error` (modelled as `none`) when the value does not fit. The
`i`/`f`/`d` formats are never packed with an `int` value by the register
map (no signed register exists, and `float` elements reject an `int`
value at the `isinstance` assertion before packing), so they are
unreachable here and map to `none`. -/
def struct_pack (t : ElementType) (value : Nat) : Option (List Nat) :=
  match t.format with
  | .u8 | .u16 | .u32 | .u64 =>
    if value < 256 ^ t.length then some (toLEBytes t.length value) else none
  | _ => none

/-- Python errors observable from the dynamic register setters:
`struct.error` from `struct.pack`, `RuntimeError("Failed to write to
memory element")`, `AssertionError` from the `isinstance` check, and
`AttributeError` from assigning a property constructed with `fset=None`. -/
inductive MemErr where
  | structError
  | runtimeError
  | assertionError
  | attributeError
deriving DecidableEq, Repr

/-- Python truthiness of the value returned by `__write_mem_elem`:
`None` is falsy, a `bool` is itself. -/
def truthy : Option Bool → Bool
  | none => false
  | some b => b

/-- `memory.py` lines 199–206, `XerxesMemoryType.__write_mem_elem`:
packs the value and invokes the injected writer `__write_reg_f` with
`(mem_addr, bytes)`. The function body has no `return` statement, so it
returns Python `None` (`Option.none`) — the writer's acknowledgement
bool is discarded. The second component logs the writer invocations. -/
def write_mem_elem (write_reg_f : Nat → List Nat → Bool)
    (elem : MemoryElement) (value : Nat) :
    Except MemErr (Option Bool × List (Nat × List Nat)) :=
  match struct_pack elem.mem_type value with
  | none => .error .structError
  | some bv =>
    let _ack := write_reg_f elem.mem_addr bv
    .ok (none, [(elem.mem_addr, bv)])

/-- `memory.py` lines 230–238, the setter built by `make_fset`: asserts
the value's host kind matches `_container`, calls `__write_mem_elem`,
and raises `RuntimeError` when the result is falsy (`if not ...`). -/
def make_fset_setter (elem : MemoryElement)
    (write_reg_f : Nat → List Nat → Bool) (value : Nat) :
    Except MemErr Unit × List (Nat × List Nat) :=
  if elem.mem_type.containerIsInt then
    match write_mem_elem write_reg_f elem value with
    | .error e => (.error e, [])
    | .ok (r, calls) =>
      if truthy r then (.ok (), calls) else (.error .runtimeError, calls)
  else
    (.error .assertionError, [])

/-- `memory.py` lines 241–245: each register becomes
`property(make_fget(attr), make_fset(attr) if attr.can_write() else None)`;
assigning through a property whose `fset` is `None` raises
`AttributeError` without running any setter code. -/
def property_set (elem : MemoryElement)
    (write_reg_f : Nat → List Nat → Bool) (value : Nat) :
    Except MemErr Unit × List (Nat × List Nat) :=
  if elem.can_write then
    make_fset_setter elem write_reg_f value
  else
    (.error .attributeError, [])

/-- `memory.py` line 51, `DV0_OFFSET`. -/
def DV0_OFFSET : Nat := 336

/-- `memory.py` line 59, `STATUS_OFFSET`. -/
def STATUS_OFFSET : Nat := 512

/-- `memory.py` line 60, `ERROR_OFFSET`. -/
def ERROR_OFFSET : Nat := 520

/-- `memory.py` line 61, `UID_OFFSET`. -/
def UID_OFFSET : Nat := 528

/-- `memory.py` line 291, `MemoryVolatile._dv0`. -/
def dv0Elem : MemoryElement := ⟨DV0_OFFSET, uint32_t, true⟩

/-- `memory.py` line 300, `MemoryReadOnly._status` (`write_access=False`). -/
def statusElem : MemoryElement := ⟨STATUS_OFFSET, uint64_t, false⟩

/-- `memory.py` line 301, `MemoryReadOnly._error` (`write_access=False`). -/
def errorElem : MemoryElement := ⟨ERROR_OFFSET, uint64_t, false⟩

/-- `memory.py` line 302, `MemoryReadOnly._uid` (`write_access=False`). -/
def uidElem : MemoryElement := ⟨UID_OFFSET, uint64_t, false⟩

/-- C5: setting the writable `dv0` register with an in-range `int`
encodes the value little-endian and invokes the injected writer with
`(offset, bytes)`, but the operation raises `RuntimeError` even though
the writer acknowledged the write — `__write_mem_elem` returns `None`,
so `if not self.__write_mem_elem(...)` is always taken. -/
theorem set_raises_despite_ack :
    property_set dv0Elem (fun _ _ => true) 5 =
      (.error .runtimeError, [(336, [5, 0, 0, 0])]) := rfl

/-- C6: every register descriptor with `write_access=False` — in
particular the read-only status, error and unique-ID registers — gets a
property with `fset=None`, so every set attempt raises `AttributeError`
and the injected byte-range writer is never invoked. -/
theorem readonly_set_rejected :
    statusElem.write_access = false ∧ errorElem.write_access = false ∧
    uidElem.write_access = false ∧
    ∀ (elem : MemoryElement) (w : Nat → List Nat → Bool) (v : Nat),
      elem.write_access = false →
      property_set elem w v = (.error .attributeError, []) := by
  refine ⟨rfl, rfl, rfl, ?_⟩
  intro elem w v hro
  unfold property_set
  rw [show elem.can_write = false from hro]
  simp

/-- Witness for C6 at the unique-ID register. -/
theorem readonly_set_rejected_witness :
    property_set uidElem (fun _ _ => true) 7 = (.error .attributeError, []) :=
  readonly_set_rejected.2.2.2 uidElem (fun _ _ => true) 7 rfl

/-! ## Node model — `XerxesRoot.ping` (`hierarchy/root.py`) -/

namespace MsgId

/-- Modelled from the spec: `xerxes_protocol/ids.py` (the `MsgId`
enumeration) is not in the source tree. §3 describes `MessageKind` as "a
closed enumeration of protocol operations ..., each with a fixed 16-bit
wire code"; the spec fixes no numeric values, so distinct placeholder
codes are used — only their distinctness matters to the claims. -/
def PING : Nat := 0

/-- Modelled from the spec: see `MsgId.PING`. -/
def PING_REPLY : Nat := 1

/-- Modelled from the spec: see `MsgId.PING`. -/
def ACK_OK : Nat := 2

end MsgId

/-- `network.py` lines 142–155, `XerxesPingReply` (latency, a wall-clock
float, is not modelled). -/
structure XerxesPingReply where
  dev_id : Nat
  v_maj : Nat
  v_min : Nat
deriving DecidableEq, Repr

/-- `struct.error` raised by `struct.unpack("BBB", ...)` on a payload
that is not exactly 3 bytes. -/
inductive RootErr where
  | structError
deriving DecidableEq, Repr

/-- `hierarchy/root.py` lines 128–139: the reply handling of
`XerxesRoot.ping`. On a `PING_REPLY` kind, `struct.unpack("BBB",
reply.payload)` yields the three single-byte fields; on any other kind
the source evaluates `NetworkError("Invalid reply received ...")` without
a `raise` statement, so the exception object is discarded and the
function falls through, returning Python `None` (`Option.none`). -/
def ping_handle_reply (reply : XerxesMessage) :
    Except RootErr (Option XerxesPingReply) :=
  if reply.message_id = MsgId.PING_REPLY then
    match reply.payload with
    | [a, b, c] => .ok (some ⟨a, b, c⟩)
    | _ => .error .structError
  else
    .ok none

/-- C4: a ping-reply kind yields the device kind and the two protocol
version bytes; but a reply of any other kind makes `ping` return `None`
with no observable error — the `NetworkError` is constructed and
immediately discarded (never raised), so the error is swallowed. -/
theorem ping_swallows_invalid_reply :
    ping_handle_reply
      { source := 1, destination := 0, length := 8,
        message_id := MsgId.PING_REPLY, payload := [3, 1, 0], crc := 0 } =
      .ok (some { dev_id := 3, v_maj := 1, v_min := 0 }) ∧
    ping_handle_reply
      { source := 1, destination := 0, length := 8,
        message_id := MsgId.ACK_OK, payload := [3, 1, 0], crc := 0 } =
      .ok none := ⟨rfl, rfl⟩

/-! ## `XerxesNetwork.wait_for_reply` (`network.py`) -/

/-- The channel state visible to `wait_for_reply`: the configured read
timeout (an opaque value of type `α`; a Python float) and the pending
byte stream. -/
structure NetState (α : Type) where
  timeout : α
  stream : List Nat

/-- `network.py` lines 356–371, `XerxesNetwork.wait_for_reply`: saves
the old timeout, sets the timeout to `t`, reconfigures, performs one
`read_msg`, restores the old timeout and returns the reply. When
`read_msg` raises, the exception propagates before the restore
statements run, so the timeout remains `t`. -/
def wait_for_reply {α : Type} (st : NetState α) (t : α) :
    Except DecodeErr XerxesMessage × NetState α :=
  let old_t := st.timeout
  let st1 : NetState α := { st with timeout := t }
  match readMsg st1.stream with
  | .error e => (.error e, st1)
  | .ok (msg, rest) => (.ok msg, { timeout := old_t, stream := rest })

/-- C10: `wait_for_reply(t)` sets the channel timeout to `t` for the
read; when the read returns a message the previously configured timeout
is restored, and when the read raises the timeout remains `t`. -/
theorem wait_for_reply_timeout_restore {α : Type} (st : NetState α) (t : α) :
    (∀ msg, (wait_for_reply st t).1 = .ok msg →
      (wait_for_reply st t).2.timeout = st.timeout) ∧
    (∀ e, (wait_for_reply st t).1 = .error e →
      (wait_for_reply st t).2.timeout = t) := by
  unfold wait_for_reply
  cases hr : readMsg st.stream with
  | error e => simp [hr]
  | ok p => simp [hr]

/-- Witness for C10: on an empty stream the read times out and the
timeout stays at the new value 9; on a stream holding one valid frame
the read succeeds and the old timeout 7 is restored. -/
theorem wait_for_reply_timeout_restore_witness :
    (wait_for_reply (⟨7, []⟩ : NetState Nat) 9).2.timeout = 9 ∧
    (wait_for_reply (⟨7, [1, 7, 0, 0, 0, 0, 248]⟩ : NetState Nat) 9).2.timeout = 7 :=
  ⟨(wait_for_reply_timeout_restore (⟨7, []⟩ : NetState Nat) 9).2
      .timeoutError rfl,
   (wait_for_reply_timeout_restore (⟨7, [1, 7, 0, 0, 0, 0, 248]⟩ : NetState Nat) 9).1
      { source := 0, destination := 0, length := 7, message_id := 0,
        payload := [], crc := 0 } rfl⟩

end Xerxes
